import Mathlib

/-!
Shallow embedding of the Shopify → Notion sync engine, translated from
`api/blob_storage.py` (class `SyncBlobStorage`) and `api/sync.py`
(class `ShopifyNotionSync`).

Modelling conventions:
* Timestamps are `Nat` seconds.  The repository stores ISO-8601 UTC strings,
  whose lexicographic order agrees with chronological order, so ordering
  facts transfer.
* Monetary amounts are `ℚ` (Python floats; all claims here are about values
  that the code copies or accumulates, never about rounding).
* JSON values persisted under `synced_orders` are modelled by `JVal`.
* The blob transport is modelled as succeeding: `save_sync_state` performs
  the cache/blob routing exactly as the Python does and reports `true`.
* External calls (Shopify GraphQL fetches, Notion page creation) are
  supplied by oracles; a Shopify fetch failure is an `Except.error`
  carrying the exception message, and a Notion create exception for a
  given order is the `apiFail` oracle answering `true` for its name.
-/

namespace SNS

/-- JSON-like values stored under `synced_orders` in `sync-state.json`. -/
inductive JVal where
  | str (s : String)
  | arr (xs : List JVal)
  | obj (fields : List (String × JVal))
  | null

/-- Python dict lookup `d.get(k)` on a JSON object (first binding wins). -/
def lookupKey : List (String × JVal) → String → Option JVal
  | [], _ => none
  | (k, v) :: rest, key => if k = key then some v else lookupKey rest key

/-- Python dict assignment `d[k] = v`: replace the first binding or append. -/
def setKey : List (String × JVal) → String → JVal → List (String × JVal)
  | [], key, v => [(key, v)]
  | (k, w) :: rest, key, v =>
      if k = key then (k, v) :: rest else (k, w) :: setKey rest key v

/-- The persisted sync-state document (`sync-state.json`). -/
structure SyncState where
  last_sync : Option Nat
  synced_orders : List (String × JVal)
  failed_orders : List String
  last_processed_updated_at : Option Nat
  sync_in_progress : Bool
  sync_started_at : Option Nat

/-- `SyncBlobStorage._get_initial_sync_state`. -/
def initial_sync_state : SyncState :=
  { last_sync := none
    synced_orders := []
    failed_orders := []
    last_processed_updated_at := none
    sync_in_progress := false
    sync_started_at := none }

/-- The in-memory side of `SyncBlobStorage` plus the persistent blob.
`blob = none` models "no sync-state file exists yet". -/
structure Storage where
  blob : Option SyncState
  batch_mode : Bool
  cached_sync_state : Option SyncState

/-- `SyncBlobStorage._read_sync_state_from_blob` (transport succeeding). -/
def read_sync_state_from_blob (s : Storage) : Option SyncState :=
  s.blob

/-- `SyncBlobStorage.get_sync_state`. -/
def get_sync_state (s : Storage) : SyncState :=
  match s.batch_mode, s.cached_sync_state with
  | true, some st => st
  | _, _ => (read_sync_state_from_blob s).getD initial_sync_state

/-- `SyncBlobStorage.save_sync_state`; the returned `Bool` is the success
flag the Python returns (blob writes modelled as succeeding). -/
def save_sync_state (s : Storage) (st : SyncState) : Storage × Bool :=
  if s.batch_mode then ({ s with cached_sync_state := some st }, true)
  else ({ s with blob := some st }, true)

/-- `SyncBlobStorage.start_batch_mode`. -/
def start_batch_mode (s : Storage) : Storage :=
  let s :=
    if ¬ s.batch_mode then
      let st := (read_sync_state_from_blob s).getD initial_sync_state
      { s with cached_sync_state := some st }
    else s
  { s with batch_mode := true }

/-- `SyncBlobStorage.end_batch_mode`. -/
def end_batch_mode (s : Storage) : Storage × Bool :=
  match s.batch_mode, s.cached_sync_state with
  | true, some st =>
      save_sync_state { s with batch_mode := false, cached_sync_state := none } st
  | _, _ => (s, true)

/-- `SyncBlobStorage.get_last_sync`. -/
def get_last_sync (s : Storage) : Option Nat :=
  (get_sync_state s).last_sync

/-- `SyncBlobStorage.get_failed_orders`. -/
def get_failed_orders (s : Storage) : List String :=
  (get_sync_state s).failed_orders

/-- `SyncBlobStorage.get_synced_order_page_ids`: normalizes the persisted
value for one order to a list of page IDs, accepting legacy shapes. -/
def get_synced_order_page_ids (s : Storage) (order_id : String) : JVal :=
  let st := get_sync_state s
  match lookupKey st.synced_orders order_id with
  | some (JVal.arr xs) => JVal.arr xs
  | some (JVal.obj fields) =>
      match lookupKey fields "notion_page_ids" with
      | some v => v
      | none =>
          match lookupKey fields "notion_page_id" with
          | some v => JVal.arr [v]
          | none => JVal.arr []
  | some (JVal.str pid) => JVal.arr [JVal.str pid]
  | some JVal.null => JVal.arr []
  | none => JVal.arr []

/-- `SyncBlobStorage.mark_order_synced`.  Stores the page-ID list, advances
`last_processed_updated_at` when a timestamp is given (unconditional
assignment), and removes the order from `failed_orders` if present
(`list.remove`, i.e. first occurrence). -/
def mark_order_synced (s : Storage) (order_id : String)
    (notion_page_ids : List String) (updated_at : Option Nat) : Storage :=
  let st := get_sync_state s
  let v := JVal.arr (notion_page_ids.map JVal.str)
  let st := { st with synced_orders := setKey st.synced_orders order_id v }
  let st : SyncState :=
    match updated_at with
    | some t => { st with last_processed_updated_at := some t }
    | none => st
  let st : SyncState :=
    if order_id ∈ st.failed_orders then
      { st with failed_orders := st.failed_orders.erase order_id }
    else st
  (save_sync_state s st).1

/-- `SyncBlobStorage.mark_order_failed`: appends the ID to `failed_orders`
when not already present.  It does not touch `synced_orders`. -/
def mark_order_failed (s : Storage) (order_id : String) : Storage :=
  let st := get_sync_state s
  let st :=
    if order_id ∈ st.failed_orders then st
    else { st with failed_orders := st.failed_orders ++ [order_id] }
  (save_sync_state s st).1

/-- `SyncBlobStorage.complete_sync` (timestamp passed explicitly). -/
def complete_sync (s : Storage) (timestamp : Nat) : Storage :=
  let st := get_sync_state s
  let st := { st with last_sync := some timestamp }
  (save_sync_state s st).1

/-- `SyncBlobStorage.get_resume_timestamp`. -/
def get_resume_timestamp (s : Storage) : Option Nat :=
  (get_sync_state s).last_processed_updated_at

/-- The 10-minute lock staleness threshold, in seconds. -/
def lockStaleSeconds : Nat := 600

/-- `SyncBlobStorage.is_sync_in_progress`: ALWAYS reads from the blob (never
the batch cache); a lock running for more than 10 minutes is treated as
stuck and reported as not in progress. -/
def is_sync_in_progress (s : Storage) (now : Nat) : Bool :=
  let st := (read_sync_state_from_blob s).getD initial_sync_state
  match st.sync_in_progress, st.sync_started_at with
  | true, some started =>
      if lockStaleSeconds < now - started then false else true
  | b, _ => b

/-- `SyncBlobStorage.start_sync_lock`: writes the lock to the blob
immediately (temporarily disabling batch mode), then also refreshes the
cache when batch mode is active. -/
def start_sync_lock (s : Storage) (now : Nat) : Storage :=
  let st := get_sync_state s
  let st := { st with sync_in_progress := true, sync_started_at := some now }
  let was_batch_mode := s.batch_mode
  let s := { s with batch_mode := false }
  let s := (save_sync_state s st).1
  let s := { s with batch_mode := was_batch_mode }
  if s.batch_mode then { s with cached_sync_state := some st } else s

/-- `SyncBlobStorage.end_sync_lock`: in batch mode only the cache is
updated; the blob is written only when batch mode is off. -/
def end_sync_lock (s : Storage) : Storage :=
  let st := get_sync_state s
  let st := { st with sync_in_progress := false, sync_started_at := none }
  if s.batch_mode then { s with cached_sync_state := some st }
  else (save_sync_state s st).1

/-- The strategy dictionary built by `ShopifyNotionSync.determine_sync_strategy`.
`sync_from_timestamp` is only present (`some`) on the incremental branch. -/
structure SyncStrategy where
  sync_type : String
  actions : List String
  needs_initial : Bool
  has_failed_orders : Bool
  resume_timestamp : Option Nat
  sync_from_timestamp : Option Nat

/-- `ShopifyNotionSync.determine_sync_strategy`.  Note the incremental
branch: `sync_from = resume_timestamp if resume_timestamp else last_sync`
(a plain fallback, not a maximum). -/
def determine_sync_strategy (s : Storage) : SyncStrategy :=
  let last_sync := get_last_sync s
  let failed_orders := get_failed_orders s
  let resume_timestamp := get_resume_timestamp s
  match last_sync with
  | none =>
      let actions := ["Initial sync required - never synced before"]
      { sync_type := "initial"
        actions := actions
        needs_initial := true
        has_failed_orders := failed_orders.length > 0
        resume_timestamp := resume_timestamp
        sync_from_timestamp := none }
  | some ls =>
      let actions : List String :=
        if failed_orders.length > 0 then
          ["Retry " ++ toString failed_orders.length ++ " failed orders"]
        else []
      let sync_from : Nat :=
        match resume_timestamp with
        | some r => r
        | none => ls
      let actions := actions ++ ["Sync orders updated since " ++ toString sync_from]
      { sync_type := "smart"
        actions := actions
        needs_initial := false
        has_failed_orders := failed_orders.length > 0
        resume_timestamp := resume_timestamp
        sync_from_timestamp := some sync_from }

/-- A Shopify money bag (`presentmentMoney`); `amount = none` models a
missing/empty `amount` field. -/
structure MoneyBag where
  amount : Option ℚ

/-- One transaction fee; the nested `amount.amount` chain collapsed to an
optional rational (`none` = missing subfield). -/
structure TxnFee where
  amount : Option ℚ

/-- One Shopify payment transaction. -/
structure Txn where
  status : String
  kind : String
  fees : List TxnFee

/-- One Shopify line-item variant. -/
structure Variant where
  title : String
  sku : String

/-- One Shopify line item (node of `lineItems.edges`). -/
structure LineItem where
  title : String
  variant : Option Variant
  originalUnitPriceSet : Option MoneyBag
  discountedUnitPriceAfterAllDiscountsSet : Option MoneyBag
  quantity : Nat

/-- One Shopify order (node of `orders.edges`).  `customer` holds the
optional `displayName`; `updatedAt` is a timestamp. -/
structure ShopifyOrder where
  name : String
  createdAt : String
  updatedAt : Nat
  email : String
  customer : Option String
  legacyResourceId : String
  totalTaxSet : Option MoneyBag
  transactions : List Txn
  displayFinancialStatus : String
  lineItems : List LineItem

/-- `ShopifyNotionSync.get_safe_amount`: tolerate a missing price set or
amount by substituting the default 0. -/
def get_safe_amount (price_set : Option MoneyBag) : ℚ :=
  match price_set with
  | some bag =>
      match bag.amount with
      | some a => a
      | none => 0
  | none => 0

/-- `ShopifyNotionSync.calculate_fees`: sum fee amounts across all
transactions, skipping transactions without fees and fees without amounts. -/
def calculate_fees (transactions : List Txn) : ℚ :=
  transactions.foldl
    (fun acc t =>
      t.fees.foldl
        (fun acc2 fee =>
          match fee.amount with
          | some a => acc2 + a
          | none => acc2)
        acc)
    0

/-- The fixed financial-status mapping table in
`ShopifyNotionSync.get_payment_status`. -/
def status_mapping (s : String) : Option String :=
  if s = "pending" then some "Pending"
  else if s = "authorized" then some "Authorized"
  else if s = "partially_paid" then some "Partially Paid"
  else if s = "paid" then some "Paid"
  else if s = "partially_refunded" then some "Partially Refunded"
  else if s = "refunded" then some "Refunded"
  else if s = "voided" then some "Voided"
  else if s = "expired" then some "Expired"
  else none

/-- `ShopifyNotionSync.get_payment_status`. -/
def get_payment_status (order : ShopifyOrder) : String :=
  let financial_status := order.displayFinancialStatus.toLower
  let transactions := order.transactions
  match status_mapping financial_status with
  | some mapped => mapped
  | none =>
      if transactions.isEmpty then "Unknown"
      else
        let has_sale := transactions.any (fun t => t.kind == "sale" && t.status == "success")
        let has_refund := transactions.any (fun t => t.kind == "refund" && t.status == "success")
        let has_void := transactions.any (fun t => t.kind == "void" && t.status == "success")
        if has_void then "Voided"
        else if has_refund && has_sale then "Partially Refunded"
        else if has_refund then "Refunded"
        else if has_sale then "Paid"
        else "Pending"

/-- One processed line item, as appended to `processed_items` inside
`ShopifyNotionSync.transform_order_data`. -/
structure ProcessedItem where
  product_name : String
  sku : String
  listed_for : ℚ
  sold_for : ℚ
  quantity : Nat

/-- The body of the line-item loop of `transform_order_data`. -/
def process_line_item (item : LineItem) : ProcessedItem :=
  let product_title := item.title
  let variant_title :=
    match item.variant with
    | some v => v.title
    | none => ""
  let sku :=
    match item.variant with
    | some v => v.sku
    | none => ""
  let product_name :=
    if variant_title ≠ "" ∧ variant_title ≠ "Default Title" then
      product_title ++ " – " ++ variant_title
    else product_title
  let original_price := get_safe_amount item.originalUnitPriceSet
  let discounted_price := get_safe_amount item.discountedUnitPriceAfterAllDiscountsSet
  let quantity := item.quantity
  { product_name := product_name
    sku := sku
    listed_for := original_price * quantity
    sold_for := discounted_price * quantity
    quantity := quantity }

/-- The transformed order returned by `transform_order_data`. -/
structure TransformedOrder where
  order_id : String
  order_date : String
  customer_name : String
  customer_email : String
  shopify_url : String
  total_tax : ℚ
  total_fees : ℚ
  total_listed : ℚ
  total_sold : ℚ
  payment_status : String
  is_multi_product : Bool
  line_items : List ProcessedItem

/-- `ShopifyNotionSync.transform_order_data`: pure transformation of one
Shopify order; the line-item loop accumulates the processed items and the
listed/sold totals. -/
def transform_order_data (order : ShopifyOrder) : TransformedOrder :=
  let order_id := order.name
  let order_date := order.createdAt
  let customer_name :=
    match order.customer with
    | some dn => dn
    | none => ""
  let customer_email := order.email
  let legacy_id := order.legacyResourceId
  let shopify_url :=
    if legacy_id ≠ "" then
      "https://admin.shopify.com/store/lil-nice-thing/orders/" ++ legacy_id
    else ""
  let total_tax := get_safe_amount order.totalTaxSet
  let total_fees := calculate_fees order.transactions
  let payment_status := get_payment_status order
  let acc : List ProcessedItem × ℚ × ℚ :=
    order.lineItems.foldl
      (fun acc item =>
        let p := process_line_item item
        (acc.1 ++ [p], acc.2.1 + p.listed_for, acc.2.2 + p.sold_for))
      ([], 0, 0)
  let processed_items := acc.1
  let total_listed := acc.2.1
  let total_sold := acc.2.2
  let is_multi_product := processed_items.length > 1
  { order_id := order_id
    order_date := order_date
    customer_name := customer_name
    customer_email := customer_email
    shopify_url := shopify_url
    total_tax := total_tax
    total_fees := total_fees
    total_listed := total_listed
    total_sold := total_sold
    payment_status := payment_status
    is_multi_product := is_multi_product
    line_items := processed_items }

/-- The Notion properties object built by
`ShopifyNotionSync.create_notion_properties` (optional properties are
omitted when their argument is falsy, modelled as `none`). -/
structure NotionProps where
  order_id : String
  product_name : String
  listed_for : ℚ
  sold_for : ℚ
  tax : ℚ
  fee : ℚ
  net_earning : ℚ
  payout : ℚ
  date : Option String
  customer_name : Option String
  customer_email : Option String
  sku : Option String
  shopify_url : Option String
  payment_status : Option String
  parent_item : Option String

/-- `ShopifyNotionSync.create_notion_properties` (the returned
`page_emoji` is always `None` and is dropped). -/
def create_notion_properties (order_id product_name date customer_name
    customer_email : String) (listed_for sold_for tax fee : ℚ)
    (sku shopify_url payment_status : String)
    (parent_item : Option String) : NotionProps :=
  { order_id := order_id
    product_name := product_name
    listed_for := listed_for
    sold_for := sold_for
    tax := tax
    fee := fee
    net_earning := sold_for - fee
    payout := sold_for + tax - fee
    date := if date ≠ "" then some date else none
    customer_name := if customer_name ≠ "" then some customer_name else none
    customer_email := if customer_email ≠ "" then some customer_email else none
    sku := if sku ≠ "" then some sku else none
    shopify_url := if shopify_url ≠ "" then some shopify_url else none
    payment_status := if payment_status ≠ "" then some payment_status else none
    parent_item := parent_item }

/-- One page created in Notion: the API-assigned page ID plus its
properties. -/
structure CreatedPage where
  id : String
  props : NotionProps

/-- A child (line-item) page of `create_notion_page`: order ID carries the
`.i` suffix, customer fields are blanked, tax and fee are 0, and
`parent_item` references the parent page. -/
def make_line_item_page (pageIds : Nat → String) (t : TransformedOrder)
    (parent_page_id : String) (i : Nat) (line_item : ProcessedItem) : CreatedPage :=
  let line_item_order_id := t.order_id ++ "." ++ toString i
  let props := create_notion_properties line_item_order_id
    line_item.product_name t.order_date "" ""
    line_item.listed_for line_item.sold_for 0 0
    line_item.sku t.shopify_url t.payment_status (some parent_page_id)
  { id := pageIds i, props := props }

/-- `ShopifyNotionSync.create_notion_page`.  `pageIds` models the Notion
API assigning page IDs (index 0 = parent, index `i` = `i`-th child);
`apiFail order.name = true` models a Notion create call raising for that
order.  Any exception in the body is caught and recorded via
`mark_order_failed`; on the single-item path with an empty `line_items`
list, `line_items[0]` raises `IndexError`, which takes the same except
branch.  Archival of previously created pages
(`get_synced_order_page_ids` + `delete_notion_pages`) is an external
Notion call that does not mutate the sync storage. -/
def create_notion_page (pageIds : Nat → String) (apiFail : String → Bool)
    (s : Storage) (order : ShopifyOrder) : Storage × Option (List CreatedPage) :=
  let t := transform_order_data order
  let order_id := t.order_id
  let product_name? : Option String :=
    if t.is_multi_product then
      some (toString t.line_items.length ++ " products")
    else
      (t.line_items.head?).map (fun p => p.product_name)
  match product_name? with
  | none =>
      -- IndexError from `transformed_data['line_items'][0]`
      (mark_order_failed s order.name, none)
  | some product_name =>
      if apiFail order.name then
        -- a Notion create call raised for this order
        (mark_order_failed s order.name, none)
      else
        let parent_props := create_notion_properties order_id product_name
          t.order_date t.customer_name t.customer_email
          t.total_listed t.total_sold t.total_tax t.total_fees
          "" t.shopify_url t.payment_status none
        let parent : CreatedPage := { id := pageIds 0, props := parent_props }
        let line_item_pages : List CreatedPage :=
          if t.is_multi_product then
            (List.enumFrom 1 t.line_items).map
              (fun p => make_line_item_page pageIds t parent.id p.1 p.2)
          else []
        let created_pages := parent :: line_item_pages
        let all_page_ids := created_pages.map (fun p => p.id)
        let s := mark_order_synced s order_id all_page_ids (some order.updatedAt)
        (s, some created_pages)

/-- Oracles for the external services used during one run: Shopify fetches
(an `Except.error` carries the exception message of a failed fetch) and
the Notion page-ID/failure behaviour. -/
structure SyncEnv where
  fetchInitial : Nat → Except String (List ShopifyOrder)
  fetchByIds : List String → Except String (List ShopifyOrder)
  fetchSince : Nat → Nat → Except String (List ShopifyOrder)
  pageIds : Nat → String
  apiFail : String → Bool

/-- One per-record loop of `sync_orders_to_notion`: accumulates
(storage, processed_orders, created_pages_count, errors). -/
def processOrders (env : SyncEnv) :
    Storage × Nat × Nat × List String → List ShopifyOrder →
      Storage × Nat × Nat × List String
  | acc, [] => acc
  | acc, order_data :: rest =>
      match create_notion_page env.pageIds env.apiFail acc.1 order_data with
      | (s, some pages) =>
          processOrders env (s, acc.2.1 + 1, acc.2.2.1 + pages.length, acc.2.2.2) rest
      | (s, none) =>
          processOrders env (s, acc.2.1, acc.2.2.1, acc.2.2.2 ++ [order_data.name]) rest

/-- The fetch-and-loop body of `sync_orders_to_notion` (everything between
strategy determination and `complete_sync`).  A fetch failure raises: the
error value carries the storage at the raise point and the exception
message. -/
def runBody (env : SyncEnv) (s : Storage) (strategy : SyncStrategy)
    (limit : Nat) : Except (Storage × String) (Storage × Nat × Nat × List String) :=
  if strategy.sync_type = "initial" ∨ strategy.needs_initial then
    match env.fetchInitial limit with
    | Except.error msg => Except.error (s, msg)
    | Except.ok orders => Except.ok (processOrders env (s, 0, 0, []) orders)
  else
    let failed_order_ids := get_failed_orders s
    let step1 : Except (Storage × String) (Storage × Nat × Nat × List String) :=
      if failed_order_ids.isEmpty then Except.ok (s, 0, 0, [])
      else
        match env.fetchByIds failed_order_ids with
        | Except.error msg => Except.error (s, msg)
        | Except.ok retry_orders =>
            Except.ok (processOrders env (s, 0, 0, []) retry_orders)
    match step1 with
    | Except.error e => Except.error e
    | Except.ok acc =>
        match strategy.sync_from_timestamp with
        | none => Except.ok acc
        | some sync_from =>
            match env.fetchSince limit sync_from with
            | Except.error msg => Except.error (acc.1, msg)
            | Except.ok updated_orders =>
                Except.ok (processOrders env acc updated_orders)

/-- The JSON result dictionary returned by `sync_orders_to_notion`
(absent keys are `none`). -/
structure RunResult where
  status : String
  message : Option String
  sync_type : Option String
  processed_orders : Option Nat
  created_pages : Option Nat
  errors : Option (List String)
  timestamp : Nat
  deriving DecidableEq, Repr

/-- The fixed message of the "already in progress" result. -/
def lockMessage : String :=
  "Another sync is already in progress. Please wait for it to complete."

/-- The "already in progress" result dictionary. -/
def blockedResult (endTime : Nat) : RunResult :=
  { status := "error"
    message := some lockMessage
    sync_type := none
    processed_orders := none
    created_pages := none
    errors := none
    timestamp := endTime }

/-- `ShopifyNotionSync.sync_orders_to_notion`.  `now` is the clock at the
lock check / lock acquisition, `endTime` the clock at result construction.
The outer `try` is modelled by the `runBody` `Except`: its handler
releases the lock and flushes batch mode before returning the error
result. -/
def sync_orders_to_notion (env : SyncEnv) (s : Storage) (mode : String)
    (limit : Nat) (now endTime : Nat) : Storage × RunResult :=
  if is_sync_in_progress s now then
    (s, { status := "error"
          message := some lockMessage
          sync_type := none
          processed_orders := none
          created_pages := none
          errors := none
          timestamp := endTime })
  else
    let s := start_sync_lock s now
    let s := start_batch_mode s
    let sync_strategy : SyncStrategy :=
      if mode = "initial" then
        -- `{'sync_type': 'initial', 'actions': [...]}`; the other keys are
        -- absent but never read (the `or` below short-circuits)
        { sync_type := "initial"
          actions := ["Initial sync requested"]
          needs_initial := false
          has_failed_orders := false
          resume_timestamp := none
          sync_from_timestamp := none }
      else determine_sync_strategy s
    match runBody env s sync_strategy limit with
    | Except.error (sErr, msg) =>
        let s2 := end_sync_lock sErr
        let s2 := (end_batch_mode s2).1
        (s2, { status := "error"
               message := some msg
               sync_type := none
               processed_orders := none
               created_pages := none
               errors := none
               timestamp := endTime })
    | Except.ok (s1, processed_orders, created_pages_count, errors) =>
        let s1 := complete_sync s1 endTime
        let s1 := end_sync_lock s1
        let s1 := (end_batch_mode s1).1
        (s1, { status := "success"
               message := none
               sync_type := some sync_strategy.sync_type
               processed_orders := some processed_orders
               created_pages := some created_pages_count
               errors := some errors
               timestamp := endTime })

/-! ### Basic storage lemmas -/

theorem get_sync_state_save (s : Storage) (st : SyncState) :
    get_sync_state (save_sync_state s st).1 = st := by
  rcases s with ⟨blob, bm, c⟩
  cases bm <;>
    simp [save_sync_state, get_sync_state, read_sync_state_from_blob]

theorem save_batch_mode (s : Storage) (st : SyncState) :
    ((save_sync_state s st).1).batch_mode = s.batch_mode := by
  rcases s with ⟨blob, bm, c⟩
  cases bm <;> simp [save_sync_state]

theorem mark_order_synced_batch_mode (s : Storage) (oid : String)
    (pids : List String) (u : Option Nat) :
    (mark_order_synced s oid pids u).batch_mode = s.batch_mode := by
  simp only [mark_order_synced]
  exact save_batch_mode s _

theorem mark_order_failed_batch_mode (s : Storage) (oid : String) :
    (mark_order_failed s oid).batch_mode = s.batch_mode := by
  simp only [mark_order_failed]
  exact save_batch_mode s _

theorem complete_sync_batch_mode (s : Storage) (t : Nat) :
    (complete_sync s t).batch_mode = s.batch_mode := by
  simp only [complete_sync]
  exact save_batch_mode s _

theorem lookupKey_setKey (m : List (String × JVal)) (k : String) (v : JVal) :
    lookupKey (setKey m k v) k = some v := by
  induction m with
  | nil => simp [setKey, lookupKey]
  | cons hd tl ih =>
      rcases hd with ⟨k', w⟩
      by_cases h : k' = k <;> simp [setKey, lookupKey, h, ih]

theorem mark_order_synced_state (s : Storage) (oid : String)
    (pids : List String) (t : Nat) :
    get_sync_state (mark_order_synced s oid pids (some t)) =
      (fun st =>
        (fun st2 =>
          if oid ∈ st2.failed_orders then
            { st2 with failed_orders := st2.failed_orders.erase oid }
          else st2)
        { st with
            synced_orders := setKey st.synced_orders oid
              (JVal.arr (pids.map JVal.str))
            last_processed_updated_at := some t })
      (get_sync_state s) := by
  simp only [mark_order_synced]
  rw [get_sync_state_save]

theorem mark_order_synced_checkpoint (s : Storage) (oid : String)
    (pids : List String) (t : Nat) :
    (get_sync_state (mark_order_synced s oid pids (some t))).last_processed_updated_at
      = some t := by
  rw [mark_order_synced_state]
  dsimp only
  split <;> rfl

theorem mark_order_failed_state (s : Storage) (oid : String) :
    get_sync_state (mark_order_failed s oid) =
      (fun st =>
        if oid ∈ st.failed_orders then st
        else { st with failed_orders := st.failed_orders ++ [oid] })
      (get_sync_state s) := by
  simp only [mark_order_failed]
  rw [get_sync_state_save]

theorem mark_order_failed_synced_orders (s : Storage) (oid : String) :
    (get_sync_state (mark_order_failed s oid)).synced_orders
      = (get_sync_state s).synced_orders := by
  rw [mark_order_failed_state]
  dsimp only
  split <;> rfl

theorem mem_failed_mark_order_failed (s : Storage) (oid : String) :
    oid ∈ (get_sync_state (mark_order_failed s oid)).failed_orders := by
  rw [mark_order_failed_state]
  dsimp only
  split
  · assumption
  · simp

/-! ### Example states used by witnesses and counterexamples -/

/-- A storage with no persisted sync-state file. -/
def emptyStorage : Storage := ⟨none, false, none⟩

/-- A persisted state whose resume checkpoint is 10. -/
def sCkpt10 : Storage :=
  ⟨some { initial_sync_state with last_processed_updated_at := some 10 }, false, none⟩

/-- A persisted state with `last_sync = 20` and resume checkpoint 10. -/
def sResume10Last20 : Storage :=
  ⟨some { initial_sync_state with last_sync := some 20, last_processed_updated_at := some 10 },
   false, none⟩

/-- A sync-state holding the lock since time 0. -/
def stLockedAt0 : SyncState :=
  { initial_sync_state with sync_in_progress := true, sync_started_at := some 0 }

/-- A non-batch storage whose blob holds the lock since time 0. -/
def sLockedAt0 : Storage := ⟨some stLockedAt0, false, none⟩

/-- A batch-mode storage whose blob and cache both hold the lock. -/
def sBatchLocked : Storage := ⟨some stLockedAt0, true, some stLockedAt0⟩

/-! ### C9 — legacy-format normalization -/

/-- C9: for every persisted synced-order value, `get_synced_order_page_ids`
normalizes on read: a bare string `"x"` to `["x"]`, an object
`{"notion_page_id": "x"}` to `["x"]`, an object `{"notion_page_ids": [...]}`
to that list, a canonical list unchanged, and a missing entry to `[]`. -/
theorem C9_legacy_format_normalization (st : SyncState) (oid x : String)
    (l : List JVal) :
    (lookupKey st.synced_orders oid = some (JVal.str x) →
      get_synced_order_page_ids ⟨some st, false, none⟩ oid = JVal.arr [JVal.str x]) ∧
    (lookupKey st.synced_orders oid = some (JVal.obj [("notion_page_id", JVal.str x)]) →
      get_synced_order_page_ids ⟨some st, false, none⟩ oid = JVal.arr [JVal.str x]) ∧
    (lookupKey st.synced_orders oid = some (JVal.obj [("notion_page_ids", JVal.arr l)]) →
      get_synced_order_page_ids ⟨some st, false, none⟩ oid = JVal.arr l) ∧
    (lookupKey st.synced_orders oid = some (JVal.arr l) →
      get_synced_order_page_ids ⟨some st, false, none⟩ oid = JVal.arr l) ∧
    (lookupKey st.synced_orders oid = none →
      get_synced_order_page_ids ⟨some st, false, none⟩ oid = JVal.arr []) := by
  have hget : get_sync_state ⟨some st, false, none⟩ = st := rfl
  refine ⟨?_, ?_, ?_, ?_, ?_⟩ <;> intro h <;>
    · simp only [get_synced_order_page_ids, hget]
      rw [h]
      try rfl

/-- A state storing a bare-string page ID for order "A". -/
def stShapeStr : SyncState :=
  { initial_sync_state with synced_orders := [("A", JVal.str "x")] }

/-- A state storing the legacy `{"notion_page_id": "x"}` shape for "A". -/
def stShapeObj1 : SyncState :=
  { initial_sync_state with
      synced_orders := [("A", JVal.obj [("notion_page_id", JVal.str "x")])] }

/-- A state storing the `{"notion_page_ids": ["x","y"]}` shape for "A". -/
def stShapeObjL : SyncState :=
  { initial_sync_state with
      synced_orders := [("A", JVal.obj [("notion_page_ids", JVal.arr [JVal.str "x", JVal.str "y"])])] }

/-- A state storing the canonical list `["x","y"]` for "A". -/
def stShapeArr : SyncState :=
  { initial_sync_state with
      synced_orders := [("A", JVal.arr [JVal.str "x", JVal.str "y"])] }

/-- Witness for C9 at the five concrete shapes of the claim. -/
theorem C9_witness :
    get_synced_order_page_ids ⟨some stShapeStr, false, none⟩ "A" = JVal.arr [JVal.str "x"] ∧
    get_synced_order_page_ids ⟨some stShapeObj1, false, none⟩ "A" = JVal.arr [JVal.str "x"] ∧
    get_synced_order_page_ids ⟨some stShapeObjL, false, none⟩ "A"
      = JVal.arr [JVal.str "x", JVal.str "y"] ∧
    get_synced_order_page_ids ⟨some stShapeArr, false, none⟩ "A"
      = JVal.arr [JVal.str "x", JVal.str "y"] ∧
    get_synced_order_page_ids ⟨some initial_sync_state, false, none⟩ "A" = JVal.arr [] :=
  ⟨(C9_legacy_format_normalization stShapeStr "A" "x" []).1 rfl,
   (C9_legacy_format_normalization stShapeObj1 "A" "x" []).2.1 rfl,
   (C9_legacy_format_normalization stShapeObjL "A" "x" [JVal.str "x", JVal.str "y"]).2.2.1 rfl,
   (C9_legacy_format_normalization stShapeArr "A" "x" [JVal.str "x", JVal.str "y"]).2.2.2.1 rfl,
   (C9_legacy_format_normalization initial_sync_state "A" "x" []).2.2.2.2 rfl⟩

/-! ### C3 — success/failure exclusivity -/

/-- C3 counterexample: sync order "A", then mark it failed (a failed
re-sync).  Afterwards "A" has a synced-orders entry AND sits in
`failed_orders` — the ID is in both sets, refuting the at-most-one
invariant as stated. -/
theorem C3_counterexample :
    lookupKey (get_sync_state (mark_order_failed
        (mark_order_synced emptyStorage "A" ["p"] none) "A")).synced_orders "A"
      = some (JVal.arr [JVal.str "p"]) ∧
    "A" ∈ (get_sync_state (mark_order_failed
        (mark_order_synced emptyStorage "A" ["p"] none) "A")).failed_orders := by
  constructor
  · rfl
  · have h : (get_sync_state (mark_order_failed
        (mark_order_synced emptyStorage "A" ["p"] none) "A")).failed_orders = ["A"] := rfl
    rw [h]
    simp

/-- C3 (amended): `mark_order_synced` removes the order from the failed
list (assuming no duplicate failed entries, which the writers never
create) and records the synced entry; but `mark_order_failed` leaves the
synced entry in place, so a failed re-sync of a previously synced order
leaves the ID in both sets. -/
theorem C3_exclusivity_amended (s : Storage) (oid : String)
    (pids : List String) (t : Nat)
    (hnd : (get_sync_state s).failed_orders.Nodup) :
    oid ∉ (get_sync_state (mark_order_synced s oid pids (some t))).failed_orders ∧
    lookupKey (get_sync_state (mark_order_synced s oid pids (some t))).synced_orders oid
      = some (JVal.arr (pids.map JVal.str)) ∧
    (get_sync_state (mark_order_failed s oid)).synced_orders
      = (get_sync_state s).synced_orders := by
  refine ⟨?_, ?_, mark_order_failed_synced_orders s oid⟩
  · rw [mark_order_synced_state]
    dsimp only
    split
    · intro hmem
      rw [List.Nodup.mem_erase_iff hnd] at hmem
      exact hmem.1 rfl
    · assumption
  · rw [mark_order_synced_state]
    dsimp only
    split <;> exact lookupKey_setKey ..

/-- Witness for C3 (amended) at a concrete state with "A" failed. -/
theorem C3_witness :
    "A" ∉ (get_sync_state (mark_order_synced
        (mark_order_failed emptyStorage "A") "A" ["p"] (some 3))).failed_orders ∧
    lookupKey (get_sync_state (mark_order_synced
        (mark_order_failed emptyStorage "A") "A" ["p"] (some 3))).synced_orders "A"
      = some (JVal.arr [JVal.str "p"]) ∧
    (get_sync_state (mark_order_failed (mark_order_failed emptyStorage "A") "A")).synced_orders
      = (get_sync_state (mark_order_failed emptyStorage "A")).synced_orders :=
  C3_exclusivity_amended (mark_order_failed emptyStorage "A") "A" ["p"] 3
    (by have h : (get_sync_state (mark_order_failed emptyStorage "A")).failed_orders = ["A"] := rfl
        rw [h]; simp)

/-! ### C1 — checkpoint monotonicity -/

/-- C1 counterexample: with the resume checkpoint at 10, a successful
`mark_order_synced` carrying update-time 5 (e.g. a retried failed order,
fetched without the ascending guarantee) moves the checkpoint BACKWARD to
5 — `mark_order_synced` does not "only ever move the checkpoint
forward". -/
theorem C1_counterexample :
    (get_sync_state (mark_order_synced sCkpt10 "A" ["p"] (some 5))).last_processed_updated_at
      = some 5 ∧ (5 : Nat) < 10 :=
  ⟨mark_order_synced_checkpoint sCkpt10 "A" ["p"] 5, by norm_num⟩

/-- A run's successful per-record completions: each entry is
(order_id, notion_page_ids, updated_at), applied via `mark_order_synced`
in fetch order. -/
def processSynced (s : Storage) (recs : List (String × List String × Nat)) : Storage :=
  recs.foldl (fun s r => mark_order_synced s r.1 r.2.1 (some r.2.2)) s

theorem processSynced_append (s : Storage)
    (recs : List (String × List String × Nat)) (r : String × List String × Nat) :
    processSynced s (recs ++ [r])
      = mark_order_synced (processSynced s recs) r.1 r.2.1 (some r.2.2) := by
  simp [processSynced, List.foldl_append]

/-- C1 (amended): after any nonempty sequence of successful per-record
completions the checkpoint equals the update-time of the LAST record
processed (unconditional: `mark_order_synced` assigns, it does not take a
max); it is ≥ its pre-run value exactly when every processed record's
update-time is ≥ that value — which the ascending fetch order of the
initial/incremental path guarantees, but single `mark_order_synced` calls
(e.g. retried failed orders) do not. -/
theorem C1_checkpoint_amended (s : Storage)
    (recs : List (String × List String × Nat)) (r : String × List String × Nat)
    (hmono : ∀ q ∈ recs ++ [r],
      ((get_sync_state s).last_processed_updated_at).getD 0 ≤ q.2.2) :
    (get_sync_state (processSynced s (recs ++ [r]))).last_processed_updated_at
      = some r.2.2 ∧
    ((get_sync_state s).last_processed_updated_at).getD 0 ≤ r.2.2 := by
  constructor
  · rw [processSynced_append]
    exact mark_order_synced_checkpoint ..
  · exact hmono r (by simp)

/-- Witness for C1 (amended): two ascending completions from checkpoint 10. -/
theorem C1_witness :
    (get_sync_state (processSynced sCkpt10
        [("A", ["p"], 11), ("B", ["q"], 12)])).last_processed_updated_at = some 12 ∧
    ((get_sync_state sCkpt10).last_processed_updated_at).getD 0 ≤ 12 :=
  C1_checkpoint_amended sCkpt10 [("A", ["p"], 11)] ("B", ["q"], 12) (by decide)

/-! ### C2 — incremental strategy lower bound -/

/-- C2 counterexample: with resume checkpoint 10 and
`last_sync_completed_at` 20 the code chooses `sync_from = 10`, not
`max(10, 20) = 20`: the incremental branch uses the resume timestamp as a
plain fallback-priority value, never a maximum. -/
theorem C2_counterexample :
    (determine_sync_strategy sResume10Last20).sync_from_timestamp = some 10 ∧
    (determine_sync_strategy sResume10Last20).sync_from_timestamp
      ≠ some (max 10 20) := by
  constructor
  · rfl
  · intro h
    have h10 : (10 : Nat) = max 10 20 := by
      have h' : some (10 : Nat) = some (max 10 20) := by rw [← h]; rfl
      exact Option.some.inj h'
    norm_num at h10

/-- C2 (amended): when `last_sync_completed_at` is set, the incremental
strategy fetches from `sync_from = resume_checkpoint` when the checkpoint
is set, and otherwise from `last_sync_completed_at` (a fallback chain,
not a maximum). -/
theorem C2_sync_from_amended (s : Storage) (ls : Nat)
    (h : get_last_sync s = some ls) :
    (determine_sync_strategy s).sync_from_timestamp
      = some ((get_resume_timestamp s).getD ls) ∧
    (determine_sync_strategy s).sync_type = "smart" := by
  simp only [determine_sync_strategy]
  rw [h]
  cases hr : get_resume_timestamp s <;> simp [hr]

/-- Witness for C2 (amended) at the concrete counterexample state. -/
theorem C2_witness :
    (determine_sync_strategy sResume10Last20).sync_from_timestamp
      = some ((get_resume_timestamp sResume10Last20).getD 20) ∧
    (determine_sync_strategy sResume10Last20).sync_type = "smart" :=
  C2_sync_from_amended sResume10Last20 20 rfl

/-! ### C7 — stale-lock recovery -/

/-- C7: a held lock whose `sync_started_at` lies more than 10 minutes
(600 s) in the past is reported as NOT in progress by
`is_sync_in_progress`; a younger lock is reported as in progress. -/
theorem C7_stale_lock (s : Storage) (st : SyncState) (started now : Nat)
    (hb : s.blob = some st) (hip : st.sync_in_progress = true)
    (hst : st.sync_started_at = some started) :
    (lockStaleSeconds < now - started → is_sync_in_progress s now = false) ∧
    (now - started < lockStaleSeconds → is_sync_in_progress s now = true) := by
  simp only [is_sync_in_progress, read_sync_state_from_blob, hb, Option.getD_some, hip, hst]
  constructor
  · intro h
    rw [if_pos h]
  · intro h
    rw [if_neg (by omega)]

/-- Witness for C7: the lock acquired at time 0 is stale at 660 s
(11 minutes) and still held at 300 s (5 minutes). -/
theorem C7_witness :
    is_sync_in_progress sLockedAt0 660 = false ∧
    is_sync_in_progress sLockedAt0 300 = true :=
  ⟨(C7_stale_lock sLockedAt0 stLockedAt0 0 660 rfl rfl rfl).1 (by decide),
   (C7_stale_lock sLockedAt0 stLockedAt0 0 300 rfl rfl rfl).2 (by decide)⟩

/-! ### C5 — lock operations vs. batching -/

/-- C5 counterexample: in batch mode, `end_sync_lock` (release) updates
only the in-memory cache; the persistent blob still shows the lock held —
release does NOT bypass batching as claimed. -/
theorem C5_counterexample :
    ((end_sync_lock sBatchLocked).blob.getD initial_sync_state).sync_in_progress = true ∧
    (end_sync_lock sBatchLocked).cached_sync_state
      = some { stLockedAt0 with sync_in_progress := false, sync_started_at := none } := by
  exact ⟨rfl, rfl⟩

/-- C5 (amended): `start_sync_lock` writes the lock to the persistent
store immediately even in batch mode, and `is_sync_in_progress` reads
fresh from the store (its answer ignores batch mode and the cache); but
`end_sync_lock` bypasses nothing — in batch mode it updates only the
in-memory cache, which reaches the store at the `end_batch_mode` flush. -/
theorem C5_lock_batching_amended (s : Storage) (now : Nat) :
    (start_sync_lock s now).blob
      = some { get_sync_state s with sync_in_progress := true, sync_started_at := some now } ∧
    (∀ b c, is_sync_in_progress { s with batch_mode := b, cached_sync_state := c } now
      = is_sync_in_progress s now) ∧
    (s.batch_mode = true →
      (end_sync_lock s).blob = s.blob ∧
      (end_sync_lock s).cached_sync_state
        = some { get_sync_state s with sync_in_progress := false, sync_started_at := none }) := by
  refine ⟨?_, fun b c => rfl, fun hb => ?_⟩
  · rcases s with ⟨blob, bm, c⟩
    cases bm <;> rfl
  · constructor <;> · simp only [end_sync_lock, hb]; rfl

/-- Witness for C5 (amended) at the concrete batch-mode locked storage. -/
theorem C5_witness :
    (start_sync_lock sBatchLocked 7).blob
      = some { get_sync_state sBatchLocked with sync_in_progress := true, sync_started_at := some 7 } ∧
    (∀ b c, is_sync_in_progress { sBatchLocked with batch_mode := b, cached_sync_state := c } 7
      = is_sync_in_progress sBatchLocked 7) ∧
    (sBatchLocked.batch_mode = true →
      (end_sync_lock sBatchLocked).blob = sBatchLocked.blob ∧
      (end_sync_lock sBatchLocked).cached_sync_state
        = some { get_sync_state sBatchLocked with sync_in_progress := false, sync_started_at := none }) :=
  C5_lock_batching_amended sBatchLocked 7

/-! ### C6 — blocked-run atomicity and distinguishability -/

/-- An environment whose Shopify fetch raises an exception whose message
happens to equal the lock-contention message. -/
def envFetchFail : SyncEnv :=
  { fetchInitial := fun _ => Except.error lockMessage
    fetchByIds := fun _ => Except.ok []
    fetchSince := fun _ _ => Except.ok []
    pageIds := fun _ => ""
    apiFail := fun _ => false }

/-- C6 counterexample: a blocked run (lock held) and a fatal-failure run
(fetch raised) can return byte-identical result dictionaries — both are
`{"status": "error", "message": ..., "timestamp": ...}` — so the blocked
outcome is NOT structurally distinguishable from a fatal failure. -/
theorem C6_counterexample :
    (sync_orders_to_notion envFetchFail sLockedAt0 "initial" 50 0 99).2
      = (sync_orders_to_notion envFetchFail emptyStorage "initial" 50 0 99).2 ∧
    is_sync_in_progress sLockedAt0 0 = true ∧
    is_sync_in_progress emptyStorage 0 = false := by
  exact ⟨rfl, rfl, rfl⟩

/-- C6 (amended): when the lock check fires, the run aborts immediately,
leaves the storage (persistent and in-memory) completely untouched, and
returns the fixed "already in progress" error result.  That result is
distinguishable from a successful run (whose status is "success", not
"error"), but it shares status "error" with fatal-failure results and
differs from them only in the message text. -/
theorem C6_blocked_amended (env : SyncEnv) (s : Storage) (mode : String)
    (limit now endTime : Nat) (h : is_sync_in_progress s now = true) :
    sync_orders_to_notion env s mode limit now endTime = (s, blockedResult endTime) ∧
    (sync_orders_to_notion env s mode limit now endTime).2.status ≠ "success" := by
  have heq : sync_orders_to_notion env s mode limit now endTime
      = (s, blockedResult endTime) := by
    unfold sync_orders_to_notion
    rw [if_pos h]
    rfl
  refine ⟨heq, ?_⟩
  rw [heq]
  have hst : ((s, blockedResult endTime).2).status = "error" := rfl
  rw [hst]
  decide

/-- Witness for C6 (amended) at the concrete locked storage. -/
theorem C6_witness :
    sync_orders_to_notion envFetchFail sLockedAt0 "smart" 50 0 99
      = (sLockedAt0, blockedResult 99) ∧
    (sync_orders_to_notion envFetchFail sLockedAt0 "smart" 50 0 99).2.status ≠ "success" :=
  C6_blocked_amended envFetchFail sLockedAt0 "smart" 50 0 99 rfl

/-! ### C4 — guaranteed lock release -/

theorem create_notion_page_batch_mode (pageIds : Nat → String)
    (apiFail : String → Bool) (s : Storage) (o : ShopifyOrder) :
    (create_notion_page pageIds apiFail s o).1.batch_mode = s.batch_mode := by
  simp only [create_notion_page]
  split
  · exact mark_order_failed_batch_mode ..
  · split
    · exact mark_order_failed_batch_mode ..
    · exact mark_order_synced_batch_mode ..

theorem processOrders_batch_mode (env : SyncEnv) (orders : List ShopifyOrder) :
    ∀ acc, (processOrders env acc orders).1.batch_mode = acc.1.batch_mode := by
  induction orders with
  | nil => intro acc; rfl
  | cons o rest ih =>
      intro acc
      simp only [processOrders]
      have hb := create_notion_page_batch_mode env.pageIds env.apiFail acc.1 o
      rcases hc : create_notion_page env.pageIds env.apiFail acc.1 o with ⟨s', r⟩
      rw [hc] at hb
      cases r <;> · rw [ih]; exact hb

/-- Whatever `runBody` returns — a fetch exception or a completed loop —
the storage it hands back keeps the caller's batch-mode flag. -/
theorem runBody_batch_mode (env : SyncEnv) (s : Storage) (strat : SyncStrategy)
    (limit : Nat) :
    (match runBody env s strat limit with
     | Except.error p => p.1.batch_mode
     | Except.ok q => q.1.batch_mode) = s.batch_mode := by
  unfold runBody
  by_cases hinit : strat.sync_type = "initial" ∨ strat.needs_initial
  · rw [if_pos hinit]
    rcases hfi : env.fetchInitial limit with m | orders
    · rfl
    · exact processOrders_batch_mode env orders (s, 0, 0, [])
  · rw [if_neg hinit]
    dsimp only
    by_cases hf : (get_failed_orders s).isEmpty = true
    · rw [if_pos hf]
      try dsimp only
      rcases hsf : strat.sync_from_timestamp with _ | t
      · rfl
      · try dsimp only
        rcases hfs : env.fetchSince limit t with m | orders
        · rfl
        · exact processOrders_batch_mode env orders (s, 0, 0, [])
    · rw [if_neg hf]
      rcases hfb : env.fetchByIds (get_failed_orders s) with m | retry_orders
      · rfl
      · try dsimp only
        have h1 := processOrders_batch_mode env retry_orders (s, 0, 0, [])
        rcases hsf : strat.sync_from_timestamp with _ | t
        · exact h1
        · try dsimp only
          rcases hfs : env.fetchSince limit t with m | orders
          · try dsimp only
            exact h1
          · try dsimp only
            rw [processOrders_batch_mode env orders]
            exact h1

/-- In batch mode, `end_sync_lock` followed by the `end_batch_mode` flush
persists an unlocked state to the blob. -/
theorem end_flush_unlocks (s : Storage) (hb : s.batch_mode = true) :
    ((end_batch_mode (end_sync_lock s)).1).blob
      = some { get_sync_state s with sync_in_progress := false, sync_started_at := none } := by
  rcases s with ⟨blob, bm, c⟩
  cases bm
  · cases hb
  · cases c <;>
      simp [end_sync_lock, end_batch_mode, save_sync_state, get_sync_state,
        read_sync_state_from_blob]

/-- C4: every run of `sync_orders_to_notion` that passes the lock check
ends with the persisted lock released — on the success path and on the
exception path alike (the handler releases the lock and flushes batch
mode), so the run never terminates holding the lock. -/
theorem C4_lock_release (env : SyncEnv) (s : Storage) (mode : String)
    (limit now endTime : Nat) (h : is_sync_in_progress s now = false) :
    (((sync_orders_to_notion env s mode limit now endTime).1).blob.getD
        initial_sync_state).sync_in_progress = false := by
  unfold sync_orders_to_notion
  rw [if_neg (by simp [h])]
  dsimp only
  have hb0 : (start_batch_mode (start_sync_lock s now)).batch_mode = true := by
    simp [start_batch_mode]
  set s0 := start_batch_mode (start_sync_lock s now) with hs0
  set strat : SyncStrategy :=
    (if mode = "initial" then
      { sync_type := "initial"
        actions := ["Initial sync requested"]
        needs_initial := false
        has_failed_orders := false
        resume_timestamp := none
        sync_from_timestamp := none }
    else determine_sync_strategy s0) with hstrat
  have hrbb := runBody_batch_mode env s0 strat limit
  rcases hrb : runBody env s0 strat limit with ⟨se, msg⟩ | ⟨so, p, c, e⟩
  · rw [hrb] at hrbb
    have hbe : se.batch_mode = true := by
      dsimp at hrbb
      rw [hrbb]
      exact hb0
    dsimp only
    rw [end_flush_unlocks se hbe]
    rfl
  · rw [hrb] at hrbb
    have hbo : so.batch_mode = true := by
      dsimp at hrbb
      rw [hrbb]
      exact hb0
    have hbc : (complete_sync so endTime).batch_mode = true := by
      rw [complete_sync_batch_mode]
      exact hbo
    dsimp only
    rw [end_flush_unlocks _ hbc]
    rfl

/-- An environment where every fetch succeeds with no orders. -/
def envOkEmpty : SyncEnv :=
  { fetchInitial := fun _ => Except.ok []
    fetchByIds := fun _ => Except.ok []
    fetchSince := fun _ _ => Except.ok []
    pageIds := fun _ => ""
    apiFail := fun _ => false }

/-- Witness for C4: a concrete run from an unlocked empty store ends with
the persisted lock released. -/
theorem C4_witness :
    (((sync_orders_to_notion envOkEmpty emptyStorage "initial" 50 0 99).1).blob.getD
        initial_sync_state).sync_in_progress = false :=
  C4_lock_release envOkEmpty emptyStorage "initial" 50 0 99 rfl

/-! ### Transform lemmas -/

theorem transform_fold (items : List LineItem) :
    ∀ (l : List ProcessedItem) (a b : ℚ),
      items.foldl (fun acc item =>
        let p := process_line_item item
        (acc.1 ++ [p], acc.2.1 + p.listed_for, acc.2.2 + p.sold_for)) (l, a, b)
      = (l ++ items.map process_line_item,
         a + ((items.map process_line_item).map ProcessedItem.listed_for).sum,
         b + ((items.map process_line_item).map ProcessedItem.sold_for).sum) := by
  induction items with
  | nil => intro l a b; simp
  | cons i rest ih =>
      intro l a b
      simp [List.foldl_cons, ih, add_assoc]

theorem transform_line_items (o : ShopifyOrder) :
    (transform_order_data o).line_items = o.lineItems.map process_line_item := by
  simp only [transform_order_data, transform_fold]
  simp

theorem transform_total_listed (o : ShopifyOrder) :
    (transform_order_data o).total_listed
      = ((o.lineItems.map process_line_item).map ProcessedItem.listed_for).sum := by
  simp only [transform_order_data, transform_fold]
  simp

theorem transform_total_sold (o : ShopifyOrder) :
    (transform_order_data o).total_sold
      = ((o.lineItems.map process_line_item).map ProcessedItem.sold_for).sum := by
  simp only [transform_order_data, transform_fold]
  simp

theorem transform_is_multi (o : ShopifyOrder) :
    (transform_order_data o).is_multi_product = decide (o.lineItems.length > 1) := by
  simp only [transform_order_data, transform_fold]
  simp

theorem transform_order_id (o : ShopifyOrder) :
    (transform_order_data o).order_id = o.name := rfl

theorem child_pages_order_ids (pageIds : Nat → String) (t : TransformedOrder)
    (pid : String) (items : List ProcessedItem) :
    ∀ n, (((List.enumFrom n items).map
        (fun p => make_line_item_page pageIds t pid p.1 p.2)).map
          (fun c => c.props.order_id))
      = (List.range items.length).map (fun i => t.order_id ++ "." ++ toString (n + i)) := by
  induction items with
  | nil => intro n; simp
  | cons p rest ih =>
      intro n
      have hr : List.range (rest.length + 1) = 0 :: (List.range rest.length).map Nat.succ :=
        List.range_succ_eq_map rest.length
      simp only [List.enumFrom, List.map_cons, List.length_cons, hr]
      refine List.cons_eq_cons.mpr ⟨?_, ?_⟩
      · simp [make_line_item_page, create_notion_properties]
      · rw [ih (n + 1), List.map_map]
        apply List.map_congr_left
        intro i _
        have hni : n + 1 + i = n + Nat.succ i := by omega
        simp [Function.comp, hni]

theorem child_pages_listed (pageIds : Nat → String) (t : TransformedOrder)
    (pid : String) (items : List ProcessedItem) :
    ∀ n, (((List.enumFrom n items).map
        (fun p => make_line_item_page pageIds t pid p.1 p.2)).map
          (fun c => c.props.listed_for))
      = items.map ProcessedItem.listed_for := by
  induction items with
  | nil => intro n; simp
  | cons p rest ih =>
      intro n
      simp only [List.enumFrom, List.map_cons]
      refine List.cons_eq_cons.mpr ⟨?_, ?_⟩
      · simp [make_line_item_page, create_notion_properties]
      · exact ih (n + 1)

theorem child_pages_sold (pageIds : Nat → String) (t : TransformedOrder)
    (pid : String) (items : List ProcessedItem) :
    ∀ n, (((List.enumFrom n items).map
        (fun p => make_line_item_page pageIds t pid p.1 p.2)).map
          (fun c => c.props.sold_for))
      = items.map ProcessedItem.sold_for := by
  induction items with
  | nil => intro n; simp
  | cons p rest ih =>
      intro n
      simp only [List.enumFrom, List.map_cons]
      refine List.cons_eq_cons.mpr ⟨?_, ?_⟩
      · simp [make_line_item_page, create_notion_properties]
      · exact ih (n + 1)

/-! ### C8 — multi-item transform shape and totals -/

/-- A line item titled "T" with no variant and no price sets. -/
def liT : LineItem :=
  { title := "T"
    variant := none
    originalUnitPriceSet := none
    discountedUnitPriceAfterAllDiscountsSet := none
    quantity := 1 }

/-- A concrete two-line-item order. -/
def oTwoItems : ShopifyOrder :=
  { name := "#1001"
    createdAt := "2024-01-01"
    updatedAt := 5
    email := ""
    customer := none
    legacyResourceId := ""
    totalTaxSet := none
    transactions := []
    displayFinancialStatus := "paid"
    lineItems := [liT, liT] }

/-- A concrete single-line-item order. -/
def oOneItem : ShopifyOrder :=
  { name := "#1002"
    createdAt := "2024-01-01"
    updatedAt := 6
    email := ""
    customer := none
    legacyResourceId := ""
    totalTaxSet := none
    transactions := []
    displayFinancialStatus := "paid"
    lineItems := [liT] }

/-- C8 counterexample: a 2-item order's parent record carries the
synthetic label "2 products" — not "2 items" as the claim words it. -/
theorem C8_counterexample :
    ((create_notion_page (fun _ => "pg") (fun _ => false) emptyStorage oTwoItems).2.map
      (fun pages => pages.map (fun p => p.props.product_name)))
      = some ["2 products", "T", "T"] ∧
    ("2 products" : String) ≠ "2 items" := by
  exact ⟨rfl, by decide⟩

/-- C8 (amended): a source order with N > 1 line items produces exactly 1
parent plus N child records; the parent's product-name is the synthetic
label "`N` products" (the code says "products", not "items"); child `i`
carries the identity suffix `.i`; and the parent's listed/sold totals
equal the sums of the children's per-line amounts.  A single-item order
produces exactly 1 record with no parent/child split. -/
theorem C8_multi_item_amended (pageIds : Nat → String) (apiFail : String → Bool)
    (s : Storage) (o : ShopifyOrder) (hfail : apiFail o.name = false) :
    (2 ≤ o.lineItems.length →
      ∃ parent children,
        (create_notion_page pageIds apiFail s o).2 = some (parent :: children) ∧
        children.length = o.lineItems.length ∧
        parent.props.product_name = toString o.lineItems.length ++ " products" ∧
        (children.map fun c => c.props.order_id)
          = (List.range o.lineItems.length).map
              (fun i => o.name ++ "." ++ toString (i + 1)) ∧
        parent.props.listed_for = (children.map fun c => c.props.listed_for).sum ∧
        parent.props.sold_for = (children.map fun c => c.props.sold_for).sum) ∧
    (o.lineItems.length = 1 →
      ∃ page, (create_notion_page pageIds apiFail s o).2 = some [page] ∧
        page.props.parent_item = none ∧ page.props.order_id = o.name) := by
  have hlender : (transform_order_data o).line_items.length = o.lineItems.length := by
    rw [transform_line_items]
    simp
  constructor
  · intro hlen
    have hmulti : (transform_order_data o).is_multi_product = true := by
      rw [transform_is_multi]
      simp only [decide_eq_true_eq]
      omega
    simp only [create_notion_page, hmulti, hfail]
    simp only [if_true]
    refine ⟨_, _, rfl, ?_, ?_, ?_, ?_, ?_⟩
    · simp [hlender]
    · simp only [create_notion_properties]
      rw [hlender]
    · rw [child_pages_order_ids pageIds (transform_order_data o) (pageIds 0)
          (transform_order_data o).line_items 1]
      rw [transform_order_id, hlender]
      apply List.map_congr_left
      intro i _
      rw [Nat.add_comm]
    · simp only [create_notion_properties]
      rw [child_pages_listed pageIds (transform_order_data o) (pageIds 0)
          (transform_order_data o).line_items 1]
      rw [transform_total_listed, transform_line_items]
    · simp only [create_notion_properties]
      rw [child_pages_sold pageIds (transform_order_data o) (pageIds 0)
          (transform_order_data o).line_items 1]
      rw [transform_total_sold, transform_line_items]
  · intro hone
    obtain ⟨li, hli⟩ := List.length_eq_one.mp hone
    have hitems : (transform_order_data o).line_items = [process_line_item li] := by
      rw [transform_line_items, hli]
      rfl
    have hmulti : (transform_order_data o).is_multi_product = false := by
      rw [transform_is_multi, hone]
      rfl
    simp only [create_notion_page, hmulti, hfail, hitems]
    exact ⟨_, rfl, rfl, rfl⟩

/-- Witness for C8 (amended) at concrete two-item and one-item orders. -/
theorem C8_witness :
    (∃ parent children,
      (create_notion_page (fun _ => "pg") (fun _ => false) emptyStorage oTwoItems).2
        = some (parent :: children) ∧
      children.length = oTwoItems.lineItems.length ∧
      parent.props.product_name = toString oTwoItems.lineItems.length ++ " products" ∧
      (children.map fun c => c.props.order_id)
        = (List.range oTwoItems.lineItems.length).map
            (fun i => oTwoItems.name ++ "." ++ toString (i + 1)) ∧
      parent.props.listed_for = (children.map fun c => c.props.listed_for).sum ∧
      parent.props.sold_for = (children.map fun c => c.props.sold_for).sum) ∧
    (∃ page,
      (create_notion_page (fun _ => "pg") (fun _ => false) emptyStorage oOneItem).2
        = some [page] ∧
      page.props.parent_item = none ∧ page.props.order_id = oOneItem.name) :=
  ⟨(C8_multi_item_amended (fun _ => "pg") (fun _ => false) emptyStorage oTwoItems rfl).1
      (by decide),
   (C8_multi_item_amended (fun _ => "pg") (fun _ => false) emptyStorage oOneItem rfl).2
      (by decide)⟩

/-! ### C10 — zero-line-item edge case -/

/-- C10: an order with no line items transforms successfully (empty
line-item list, zero totals, not multi-item), but `create_notion_page`
then hits `line_items[0]` on the single-item path, raising; the order is
recorded as failed (its ID lands in `failed_orders`) and never synced
(`synced_orders` is untouched). -/
theorem C10_empty_line_items (pageIds : Nat → String) (apiFail : String → Bool)
    (s : Storage) (o : ShopifyOrder) (hempty : o.lineItems = []) :
    (transform_order_data o).line_items = [] ∧
    (transform_order_data o).total_listed = 0 ∧
    (transform_order_data o).total_sold = 0 ∧
    (transform_order_data o).is_multi_product = false ∧
    (create_notion_page pageIds apiFail s o).2 = none ∧
    o.name ∈ (get_sync_state (create_notion_page pageIds apiFail s o).1).failed_orders ∧
    (get_sync_state (create_notion_page pageIds apiFail s o).1).synced_orders
      = (get_sync_state s).synced_orders := by
  have hli : (transform_order_data o).line_items = [] := by
    rw [transform_line_items, hempty]
    rfl
  have hmulti : (transform_order_data o).is_multi_product = false := by
    rw [transform_is_multi, hempty]
    rfl
  have hcr : create_notion_page pageIds apiFail s o = (mark_order_failed s o.name, none) := by
    simp only [create_notion_page, hmulti, hli]
    rfl
  rw [hcr]
  refine ⟨hli, ?_, ?_, hmulti, rfl, ?_, ?_⟩
  · rw [transform_total_listed, hempty]
    rfl
  · rw [transform_total_sold, hempty]
    rfl
  · exact mem_failed_mark_order_failed s o.name
  · exact mark_order_failed_synced_orders s o.name

/-- A concrete order with an empty line-item list. -/
def oNoItems : ShopifyOrder :=
  { name := "#1003"
    createdAt := "2024-01-01"
    updatedAt := 7
    email := ""
    customer := none
    legacyResourceId := ""
    totalTaxSet := none
    transactions := []
    displayFinancialStatus := "paid"
    lineItems := [] }

/-- Witness for C10 at a concrete zero-line-item order. -/
theorem C10_witness :
    (transform_order_data oNoItems).line_items = [] ∧
    (transform_order_data oNoItems).total_listed = 0 ∧
    (transform_order_data oNoItems).total_sold = 0 ∧
    (transform_order_data oNoItems).is_multi_product = false ∧
    (create_notion_page (fun _ => "pg") (fun _ => false) emptyStorage oNoItems).2 = none ∧
    oNoItems.name ∈ (get_sync_state
      (create_notion_page (fun _ => "pg") (fun _ => false) emptyStorage oNoItems).1).failed_orders ∧
    (get_sync_state
      (create_notion_page (fun _ => "pg") (fun _ => false) emptyStorage oNoItems).1).synced_orders
      = (get_sync_state emptyStorage).synced_orders :=
  C10_empty_line_items (fun _ => "pg") (fun _ => false) emptyStorage oNoItems rfl

end SNS
